import Mathlib

/-!
Verification development for the Hardware Stress Testing Tool (`src/main.cpp`).

The development shallowly embeds the core of `main.cpp`:
  * the metrics sampler (`cpuPercent`, `memPercent`, `rootDiskPercent`,
    lines 141-204),
  * the command builder (`MainWindow::buildCommand`, lines 566-616), and
  * the run-supervisor handlers (`startClicked`, `stopClicked`,
    `procFinished`, `readStdout`, `readStderr`, lines 473-541).

Machine integers (`quint64` / `qulonglong` / `unsigned long long`) are
modelled as `Nat` with explicit reduction modulo `2 ^ 64` at every
arithmetic operation the C++ code performs on them.  `double` results are
modelled as exact rationals (`ℚ`); the claims under scrutiny only concern
exact zero values and membership in `[0, 100]`, for which the rational
model is faithful (the quantities involved never underflow to zero in
IEEE `double`, and rounding cannot move a value across the `0`/`100`
bounds stated here).

File reads (`/proc/stat`, `/proc/meminfo`), the `statvfs` call, the
dependency probe (`which`), timestamps and the OS-level outcomes of
`QFile::open` / `QProcess::start` are inputs of the embedded functions:
each embedded function takes the observed data (or an `Option` that is
`none` when the underlying call fails) as an argument.
-/

/-! ### 64-bit modular arithmetic -/

/-- Modulus of the 64-bit unsigned types (`quint64`, `qulonglong`,
`unsigned long long`) used by the source. -/
def two64 : Nat := 2 ^ 64

/-- 64-bit unsigned addition. -/
def add64 (a b : Nat) : Nat := (a + b) % two64

/-- 64-bit unsigned subtraction (wraps around like C unsigned arithmetic:
for `a b < two64` the result is `(a + two64 - b) % two64`). -/
def sub64 (a b : Nat) : Nat := (a % two64 + (two64 - b % two64)) % two64

/-- 64-bit unsigned multiplication. -/
def mul64 (a b : Nat) : Nat := a * b % two64

/-! ### String helpers

The source uses `QString::trimmed`, `QString::split(QRegularExpression("\\s+"),
Qt::SkipEmptyParts)`, `QString::remove(':')`, `QString::toULongLong` and
`QStringList::join(' ')`.  They are modelled below on `List Char`
(executable, so concrete witnesses evaluate by `decide`). -/

/-- `QString::trimmed`: strip leading and trailing whitespace. -/
def trimStr (s : String) : String :=
  String.mk (((s.data.dropWhile Char.isWhitespace).reverse.dropWhile Char.isWhitespace).reverse)

/-- Worker for `splitWs`: accumulates the current word (reversed). -/
def splitWsGo : List Char → List Char → List String
  | [], cur => if cur = [] then [] else [String.mk cur.reverse]
  | c :: rest, cur =>
    if c.isWhitespace then
      if cur = [] then splitWsGo rest []
      else String.mk cur.reverse :: splitWsGo rest []
    else splitWsGo rest (c :: cur)

/-- `QString::split(QRegularExpression("\\s+"), Qt::SkipEmptyParts)`:
whitespace-separated words, empty parts skipped. -/
def splitWs (s : String) : List String := splitWsGo s.data []

/-- `QString::remove(':')`: delete every colon. -/
def removeColons (s : String) : String := String.mk (s.data.filter (fun c => c ≠ ':'))

/-- Decimal value of a digit list (most significant first). -/
def digitsToNat (ds : List Char) : Nat := ds.foldl (fun a c => a * 10 + (c.toNat - 48)) 0

/-- Digit-run conversion: succeeds exactly on a nonempty all-digit
character list whose value fits in 64 bits. -/
def toULLCore (cs : List Char) : Option Nat :=
  if cs ≠ [] ∧ cs.all Char.isDigit ∧ digitsToNat cs < two64 then some (digitsToNat cs)
  else none

/-- `QString::toULongLong(&ok)` in base 10: an optional leading `+`
followed by a digit run whose value fits in 64 bits; on failure `ok` is
false, modelled as `none`. -/
def toULongLong (s : String) : Option Nat :=
  toULLCore (match s.data with
    | '+' :: rest => rest
    | cs => cs)

/-- `QStringList::join(' ')`. -/
def joinSpace (l : List String) : String := String.intercalate " " l

/-! ### CPU sampler (`readCpu` / `cpuPercent`, main.cpp lines 138-163) -/

/-- `CpuSnapshot` (main.cpp line 138): ten `quint64` counters from the
aggregate `cpu` line of `/proc/stat`.  All fields default to 0, exactly as
in the C++ struct initialisers. -/
structure CpuSnapshot where
  user : Nat := 0
  nice : Nat := 0
  sys : Nat := 0
  idle : Nat := 0
  iowait : Nat := 0
  irq : Nat := 0
  softirq : Nat := 0
  steal : Nat := 0
  guest : Nat := 0
  guest_nice : Nat := 0
deriving DecidableEq

/-- Model of a `QTextStream` over the line read from `/proc/stat`: the
remaining characters plus an ok flag (false once a read has failed;
further reads then yield `""` / `0` without consuming input). -/
structure TStream where
  chars : List Char
  ok : Bool

/-- `QTextStream >> QString`: skip whitespace, read one word.  Reading at
end of input yields `""` and puts the stream in the failed state. -/
def tsReadWord (ts : TStream) : String × TStream :=
  if ts.ok then
    let rest := ts.chars.dropWhile Char.isWhitespace
    let w := rest.takeWhile (fun c => !c.isWhitespace)
    (String.mk w, ⟨rest.drop w.length, w ≠ []⟩)
  else ("", ts)

/-- `QTextStream >> quint64`: skip whitespace, read a digit run.  A missing
digit run or a value not fitting 64 bits fails the stream and yields `0`
(exactly the value the C++ code then stores in the snapshot field). -/
def tsReadU64 (ts : TStream) : Nat × TStream :=
  if ts.ok then
    let rest := ts.chars.dropWhile Char.isWhitespace
    let ds := rest.takeWhile Char.isDigit
    if ds = [] then (0, ⟨rest, false⟩)
    else if digitsToNat ds < two64 then (digitsToNat ds, ⟨rest.drop ds.length, true⟩)
    else (0, ⟨rest.drop ds.length, false⟩)
  else (0, ts)

/-- `readCpu` (main.cpp lines 141-150).  The argument is the first line of
`/proc/stat`, or `none` when the file cannot be opened.  The tag word must
be exactly `"cpu"`; then ten counters are read in order (failed reads
leave the remaining fields `0`, matching the struct defaults combined with
`QTextStream`'s failed-state semantics). -/
def readCpu (file : Option String) : Option CpuSnapshot :=
  match file with
  | none => none
  | some line =>
    let p0 := tsReadWord ⟨line.data, true⟩
    if p0.1 = "cpu" then
      let p1 := tsReadU64 p0.2
      let p2 := tsReadU64 p1.2
      let p3 := tsReadU64 p2.2
      let p4 := tsReadU64 p3.2
      let p5 := tsReadU64 p4.2
      let p6 := tsReadU64 p5.2
      let p7 := tsReadU64 p6.2
      let p8 := tsReadU64 p7.2
      let p9 := tsReadU64 p8.2
      let p10 := tsReadU64 p9.2
      some ⟨p1.1, p2.1, p3.1, p4.1, p5.1, p6.1, p7.1, p8.1, p9.1, p10.1⟩
    else none

/-- `(idle + iowait)` of one snapshot, in `quint64` arithmetic
(main.cpp line 155). -/
def idlePair (s : CpuSnapshot) : Nat := add64 s.idle s.iowait

/-- `user + nice + sys + irq + softirq + steal` of one snapshot, summed
left to right in `quint64` arithmetic (main.cpp lines 156-157). -/
def nonIdleSum (s : CpuSnapshot) : Nat :=
  add64 (add64 (add64 (add64 (add64 s.user s.nice) s.sys) s.irq) s.softirq) s.steal

/-- `deltaIdle` (main.cpp line 155): unsigned 64-bit subtraction. -/
def cpuDeltaIdle (p n : CpuSnapshot) : Nat := sub64 (idlePair n) (idlePair p)

/-- `deltaNon` (main.cpp line 158): unsigned 64-bit subtraction. -/
def cpuDeltaNon (p n : CpuSnapshot) : Nat := sub64 (nonIdleSum n) (nonIdleSum p)

/-- `total` (main.cpp line 159). -/
def cpuTotal (p n : CpuSnapshot) : Nat := add64 (cpuDeltaIdle p n) (cpuDeltaNon p n)

/-- `cpuPercent` (main.cpp lines 151-163) with the `static` prior snapshot
made explicit: takes the stored prior and the freshly read current
snapshot, returns the reported percentage and the new stored prior.  When
either snapshot is missing the function returns `0.0` before the
`prev = now` assignment, so the prior is unchanged; otherwise the prior
becomes `now`.  `total` is a `quint64`, so the guard `total <= 0` in the
source is `total = 0` here. -/
def cpuPercent (prev now : Option CpuSnapshot) : ℚ × Option CpuSnapshot :=
  match prev, now with
  | some p, some n =>
    (if cpuTotal p n = 0 then 0 else (cpuDeltaNon p n : ℚ) / (cpuTotal p n : ℚ) * 100, some n)
  | p, _ => (0, p)

/-- The very first `cpuPercent` call: the `static` prior is initialised by
`readCpu()` and `now` is produced by a second `readCpu()` in the same
invocation.  Both reads observe the same kernel state in this
single-threaded model, so they return the same value `r`. -/
def cpuPercentFirst (r : Option CpuSnapshot) : ℚ × Option CpuSnapshot :=
  cpuPercent r r

/-! ### Memory sampler (`memPercent`, main.cpp lines 165-192) -/

/-- One parsing step of the `/proc/meminfo` loop (main.cpp lines 169-177):
split the line on whitespace; if there are at least two parts and the
second converts as a `qulonglong`, store it under the first part with
colons removed.  `QHash::insert` overwrites, modelled by prepending (the
lookup below takes the most recent binding). -/
def memMapStep (m : List (String × Nat)) (line : String) : List (String × Nat) :=
  match splitWs line with
  | k :: v :: _ =>
    match toULongLong v with
    | some kB => (removeColons k, kB) :: m
    | none => m
  | _ => m

/-- The `QHash<QString,qulonglong>` built from the lines of
`/proc/meminfo`. -/
def memMap (lines : List String) : List (String × Nat) := lines.foldl memMapStep []

/-- Lookup in the hash model: most recent binding for the key. -/
def assocFind? (m : List (String × Nat)) (k : String) : Option Nat :=
  match m.find? (fun e => e.1 == k) with
  | some e => some e.2
  | none => none

/-- `QHash::value(key, 0)`: lookup with default `0`
(main.cpp lines 178-185). -/
def assocGet (m : List (String × Nat)) (k : String) : Nat :=
  match assocFind? m k with
  | some v => v
  | none => 0

/-- `memPercent` (main.cpp lines 165-192).  The argument is the list of
lines of `/proc/meminfo`, or `none` when the file cannot be opened.
`used_kB = MemTotal - avail_kB` is computed in `qulonglong` arithmetic and
then converted to `double`; the percentage is `0.0` when `MemTotal = 0`.
(The `MemFree`, `Buffers`, `Cached`, `SReclaimable` and `Shmem` lookups in
the source are dead values and are omitted.) -/
def memPercent (file : Option (List String)) : ℚ :=
  match file with
  | none => 0
  | some lines =>
    let m := memMap lines
    let memTotal := assocGet m "MemTotal"
    let avail_kB := assocGet m "MemAvailable"
    let used_kB : ℚ := (sub64 memTotal avail_kB : ℚ)
    if memTotal = 0 then 0 else used_kB / (memTotal : ℚ) * 100

/-! ### Disk sampler (`rootDiskPercent`, main.cpp lines 194-204) -/

/-- The fields of `struct statvfs` consulted by the source. -/
structure StatVfs where
  f_blocks : Nat
  f_frsize : Nat
  f_bavail : Nat
deriving DecidableEq

/-- `rootDiskPercent` (main.cpp lines 194-204).  The argument is the
`statvfs("/")` result, or `none` when the call fails.  `total`, `avail`
and `used` are `unsigned long long` computations. -/
def rootDiskPercent (s : Option StatVfs) : ℚ :=
  match s with
  | none => 0
  | some s =>
    let total := mul64 s.f_blocks s.f_frsize
    let avail := mul64 s.f_bavail s.f_frsize
    let used := sub64 total avail
    if total = 0 then 0 else (used : ℚ) / (total : ℚ) * 100

/-! ### Command builder (`MainWindow::buildCommand`, main.cpp lines 566-616) -/

/-- The selected benchmark, i.e. which of the five radio buttons is
checked (exactly one always is; `buildCommand` tests them in order). -/
inductive BenchKind where
  | cpu
  | ram
  | gpu
  | disk
  | net
deriving DecidableEq

/-- `MainWindow::testName` (main.cpp lines 558-564). -/
def testName (k : BenchKind) : String :=
  match k with
  | .cpu => "cpu"
  | .ram => "ram"
  | .gpu => "gpu"
  | .disk => "disk"
  | .net => "net"

/-- The widget inputs read by `buildCommand`: spin-box values, line-edit
texts, plus the two ambient values it queries (`QSysInfo::productType()`
and `QDir::currentPath()`). -/
structure UiState where
  kind : BenchKind
  cpuWorkers : Int
  cpuDuration : Int
  ramWorkers : Int
  ramDuration : Int
  ramBytes : String
  diskSize : String
  diskRuntime : Int
  diskFilename : String
  netServer : String
  netExtra : String
  productType : String
  currentPath : String

/-- The message boxes the handlers can pop up, by identity:
`busy` is the "Busy" warning in `startClicked`, `missingDep` the
"Missing Dependency" critical box in `buildCommand`'s `need` lambda,
`inputError` the "Input Error" warning for a blank iperf3 server, and
`logError` the "Logging Error" critical box in `startClicked`. -/
inductive Dialog where
  | busy
  | missingDep (tool : String)
  | inputError
  | logError
deriving DecidableEq

/-- Worker for `QProcess::splitCommand` (Qt's shell-like tokenizer used on
the extra iperf3 arguments): `tmp` is the current token reversed,
`quoteCount`/`inQuote` track double-quote handling (`"""` emits a literal
quote). -/
def splitCommandGo : List Char → List Char → Nat → Bool → List String
  | [], tmp, _, _ => if tmp = [] then [] else [String.mk tmp.reverse]
  | c :: rest, tmp, quoteCount, inQuote =>
    if c = '"' then
      if quoteCount + 1 = 3 then splitCommandGo rest (c :: tmp) 0 inQuote
      else splitCommandGo rest tmp (quoteCount + 1) inQuote
    else
      let inQuote' := if quoteCount = 1 then !inQuote else inQuote
      if !inQuote' && c.isWhitespace then
        if tmp = [] then splitCommandGo rest [] 0 inQuote'
        else String.mk tmp.reverse :: splitCommandGo rest [] 0 inQuote'
      else splitCommandGo rest (c :: tmp) 0 inQuote'

/-- `QProcess::splitCommand` (main.cpp line 612). -/
def splitCommand (s : String) : List String := splitCommandGo s.data [] 0 false

/-- `MainWindow::buildCommand` (main.cpp lines 566-616), with the
dependency probe `which` supplied as the function `deps` (true when the
executable resolves).  The C++ function returns
`std::pair<QStringList, std::optional<int>>`, an empty list signalling
failure after `need`/the blank-server check showed a message box; the
model returns the same pair together with the list of boxes shown. -/
def buildCommand (ui : UiState) (deps : String → Bool) :
    (List String × Option Int) × List Dialog :=
  match ui.kind with
  | .cpu =>
    if deps "stress-ng" = false then (([], none), [Dialog.missingDep "stress-ng"])
    else
      let workers := max 1 ui.cpuWorkers
      let dur := max 5 ui.cpuDuration
      ((["stress-ng", "--cpu", toString workers, "--timeout", toString dur ++ "s"],
        some dur), [])
  | .ram =>
    if deps "stress-ng" = false then (([], none), [Dialog.missingDep "stress-ng"])
    else
      let vm := max 1 ui.ramWorkers
      let dur := max 5 ui.ramDuration
      let bytes := if trimStr ui.ramBytes = "" then "512M" else trimStr ui.ramBytes
      ((["stress-ng", "--vm", toString vm, "--vm-bytes", bytes, "--timeout",
         toString dur ++ "s"], some dur), [])
  | .gpu =>
    if deps "glmark2" = false then (([], none), [Dialog.missingDep "glmark2"])
    else ((["glmark2"], none), [])
  | .disk =>
    if deps "fio" = false then (([], none), [Dialog.missingDep "fio"])
    else
      let size := if trimStr ui.diskSize = "" then "1G" else trimStr ui.diskSize
      let runtime := max 5 ui.diskRuntime
      let filename := if trimStr ui.diskFilename = "" then ui.currentPath ++ "/fio_testfile.bin"
                      else trimStr ui.diskFilename
      let ioengine := if ui.productType = "linux" then "libaio" else "psync"
      ((["fio", "--name=randrw", "--rw=randrw", "--size=" ++ size,
         "--runtime=" ++ toString runtime, "--time_based=1",
         "--filename=" ++ filename, "--ioengine=" ++ ioengine, "--direct=1"],
        some runtime), [])
  | .net =>
    if deps "iperf3" = false then (([], none), [Dialog.missingDep "iperf3"])
    else
      let srv := trimStr ui.netServer
      if srv = "" then (([], none), [Dialog.inputError])
      else ((["iperf3", "-c", srv] ++ splitCommand (trimStr ui.netExtra), none), [])

/-! ### Run supervisor (`startClicked` / `stopClicked` / `procFinished` /
`readStdout` / `readStderr`, main.cpp lines 473-555) -/

/-- The `MainWindow` state mutated by the process-lifecycle handlers.
`procRunning` is `proc.state() != QProcess::NotRunning`; `logOpen`,
`logName` and `logContent` model the member `QFile logFile` (contents of
the currently named file); the remaining fields model the start/stop
buttons, the progress bar, the ETA label, the status bar and the output
view. -/
structure MWState where
  procRunning : Bool
  logOpen : Bool
  logName : String
  logContent : String
  btnStartEnabled : Bool
  btnStopEnabled : Bool
  expectedSeconds : Option Int
  progressMin : Int
  progressMax : Int
  progressValue : Int
  etaText : String
  statusMsg : String
  output : String

/-- `QTextEdit::append`: adds the text as a new paragraph. -/
def uiAppend (o s : String) : String := o ++ s ++ "\n"

/-- The state of the freshly constructed window (`buildUi`,
main.cpp lines 256-413): no process, no log, Start enabled, Stop
disabled, progress range `[0,100]` at `0`, status `"Ready."`. -/
def initState : MWState where
  procRunning := false
  logOpen := false
  logName := ""
  logContent := ""
  btnStartEnabled := true
  btnStopEnabled := false
  expectedSeconds := none
  progressMin := 0
  progressMax := 100
  progressValue := 0
  etaText := "ETA: --:--"
  statusMsg := "Ready."
  output := ""

/-- `APP_NAME` (main.cpp line 18). -/
def appName : String := "Hardware Stress Testing Tool"

/-- The environment a `startClicked` invocation observes: the widget
inputs, the dependency probe, the log directory and the two timestamp
strings, plus the OS outcomes of the two fallible calls — `logOpenOk` is
whether `QFile::open` on a fresh (closed) log file would succeed, and
`spawnOk` is whether `QProcess::start` manages to execute the program. -/
structure StartEnv where
  ui : UiState
  deps : String → Bool
  logDir : String
  stamp : String
  nowIso : String
  logOpenOk : Bool
  spawnOk : Bool

/-- The log header written by `startClicked` (main.cpp lines 489-491). -/
def logHeader (env : StartEnv) (cmd : List String) : String :=
  appName ++ " Log - " ++ env.nowIso ++ "\n" ++ "Command: " ++ joinSpace cmd ++ "\n\n"

/-- `MainWindow::startClicked` (main.cpp lines 473-509).  Returns the new
state and the message boxes shown.  Notes kept faithful to Qt semantics:
`QFile::setFileName` is ignored on an open file and `QFile::open` fails on
an already-open file; after a failed `QProcess::start` the process state
falls back to `NotRunning` and no `finished` signal will ever be emitted
(and no `errorOccurred` handler is connected), so on spawn failure the
handler completes with everything set up for a run that never happens. -/
def startClicked (st : MWState) (env : StartEnv) : MWState × List Dialog :=
  if st.procRunning then (st, [Dialog.busy])
  else
    let bc := buildCommand env.ui env.deps
    let cmd := bc.1.1
    let exp := bc.1.2
    if cmd = [] then (st, bc.2)
    else
      let fn := env.logDir ++ "/" ++ testName env.ui.kind ++ "_" ++ env.stamp ++ ".log"
      let st := if st.logOpen then st else { st with logName := fn }
      if st.logOpen || !env.logOpenOk then (st, bc.2 ++ [Dialog.logError])
      else
        ({ st with
            logOpen := true
            logContent := logHeader env cmd
            expectedSeconds := exp
            btnStartEnabled := false
            btnStopEnabled := true
            progressMin := 0
            progressMax := match exp with | some e => e | none => 0
            progressValue := match exp with | some _ => 0 | none => st.progressValue
            etaText := match exp with | some _ => "ETA: calculating…" | none => "ETA: --:--"
            output := uiAppend st.output ("Starting: " ++ joinSpace cmd)
            statusMsg := "Running…"
            procRunning := env.spawnOk }, bc.2)

/-- The signals `stopClicked` can send to the child process. -/
inductive Sig where
  | terminate
  | kill
deriving DecidableEq

/-- `MainWindow::stopClicked` (main.cpp lines 511-520).  `exitsWithin`
is whether the child exits inside the `waitForFinished(3000)` window.
Returns the new state and the signals sent, in order.  The `finished`
signal (which `waitForFinished` may already deliver re-entrantly) is
modelled as a separate subsequent `procFinished` event; none of the
properties stated below depend on that scheduling difference. -/
def stopClicked (st : MWState) (exitsWithin : Bool) : MWState × List Sig :=
  if st.procRunning then
    ({ st with
        output := uiAppend st.output "\nStopping… attempting graceful termination."
        statusMsg := "Stopping…" },
     if exitsWithin then [Sig.terminate] else [Sig.terminate, Sig.kill])
  else (st, [])

/-- `MainWindow::procFinished` (main.cpp lines 522-530), i.e. delivery of
the `QProcess::finished` signal; by then the process has already left the
`Running` state, so `procRunning` is cleared here. -/
def procFinished (rc : Int) (st : MWState) : MWState :=
  { st with
      procRunning := false
      output := uiAppend st.output ("\nProcess finished with return code: " ++ toString rc)
      logContent := if st.logOpen then st.logContent ++ "\n[exit] " ++ toString rc ++ "\n"
                    else st.logContent
      logOpen := false
      btnStartEnabled := true
      btnStopEnabled := false
      statusMsg := "Ready."
      progressMin := 0
      progressMax := 100
      progressValue := 0
      etaText := "ETA: --:--" }

/-- `MainWindow::readStdout` (main.cpp lines 532-536) with the bytes read
by `readAllStandardOutput` as input: insert into the output view and, if
the log is open, append verbatim to the log. -/
def readStdout (s : String) (st : MWState) : MWState :=
  { st with
      output := st.output ++ s
      logContent := if st.logOpen then st.logContent ++ s else st.logContent }

/-- `MainWindow::readStderr` (main.cpp lines 537-541), identical effect on
output view and log. -/
def readStderr (s : String) (st : MWState) : MWState :=
  { st with
      output := st.output ++ s
      logContent := if st.logOpen then st.logContent ++ s else st.logContent }

/-- One asynchronous output-available event from the child process. -/
inductive OutEvent where
  | stdout (s : String)
  | stderr (s : String)

/-- Dispatch one output event to its handler. -/
def applyOut (st : MWState) (e : OutEvent) : MWState :=
  match e with
  | .stdout s => readStdout s st
  | .stderr s => readStderr s st

/-- Deliver a sequence of output events in arrival order. -/
def applyOutputs (st : MWState) (es : List OutEvent) : MWState := es.foldl applyOut st

/-- The payload bytes of one output event. -/
def chunkData : OutEvent → String
  | .stdout s => s
  | .stderr s => s

/-- Concatenation of all payload bytes in arrival order. -/
def concatOut : List OutEvent → String
  | [] => ""
  | e :: rest => chunkData e ++ concatOut rest

/-! ### Concrete fixtures used by the closed witnesses -/

/-- A dependency probe that resolves every tool. -/
def depsAll : String → Bool := fun _ => true

/-- A concrete widget configuration: CPU test selected, 4 workers,
duration 300 s. -/
def uiW : UiState where
  kind := BenchKind.cpu
  cpuWorkers := 4
  cpuDuration := 300
  ramWorkers := 2
  ramDuration := 300
  ramBytes := "1G"
  diskSize := "1G"
  diskRuntime := 60
  diskFilename := "/home/u/fio_testfile.bin"
  netServer := ""
  netExtra := ""
  productType := "linux"
  currentPath := "/home/u"

/-- A concrete start environment around `uiW` in which every OS
interaction succeeds. -/
def envW : StartEnv where
  ui := uiW
  deps := depsAll
  logDir := "/home/u/HardwareStressTest/logs"
  stamp := "2025-01-01_00-00-00"
  nowIso := "2025-01-01T00:00:00"
  logOpenOk := true
  spawnOk := true

/-- Well-formed pair of CPU snapshots: the counters the code uses are
monotonically non-decreasing from `p` to `n` (the kernel counters only
grow) and the current totals fit in 64 bits, so none of the `quint64`
operations in `cpuPercent` wraps. -/
def WellFormedCpu (p n : CpuSnapshot) : Prop :=
  p.user ≤ n.user ∧ p.nice ≤ n.nice ∧ p.sys ≤ n.sys ∧ p.idle ≤ n.idle ∧
  p.iowait ≤ n.iowait ∧ p.irq ≤ n.irq ∧ p.softirq ≤ n.softirq ∧ p.steal ≤ n.steal ∧
  n.idle + n.iowait + (n.user + n.nice + n.sys + n.irq + n.softirq + n.steal) < two64

instance (p n : CpuSnapshot) : Decidable (WellFormedCpu p n) := by
  unfold WellFormedCpu
  infer_instance

/-! ### C4 : the `total <= 0` guard of `cpuPercent` -/

/-- Prior snapshot for the counter-reset counterexample: every counter
is `2`. -/
def resetPrev : CpuSnapshot := ⟨2, 2, 2, 2, 2, 2, 2, 2, 2, 2⟩

/-- Current snapshot for the counter-reset counterexample: every counter
is `1` — strictly below the stored prior in every component. -/
def resetNow : CpuSnapshot := ⟨1, 1, 1, 1, 1, 1, 1, 1, 1, 1⟩

/-- Prior snapshot for the in-range witness. -/
def wfPrev : CpuSnapshot := ⟨1, 0, 0, 2, 0, 0, 0, 0, 0, 0⟩

/-- Current snapshot for the in-range witness. -/
def wfNow : CpuSnapshot := ⟨3, 0, 0, 7, 0, 0, 0, 0, 0, 0⟩

/-- Concrete `/proc/meminfo` lines for the witnesses. -/
def linesW : List String := ["MemTotal: 2048 kB", "MemAvailable: 1024 kB"]

/-- Concrete filesystem statistics for the witnesses. -/
def svW : StatVfs := ⟨1000, 4096, 250⟩

/-- Concrete `/proc/meminfo` lines lacking `MemAvailable`. -/
def linesNoAvail : List String := ["MemTotal: 1024 kB", "MemFree: 512 kB"]

/-! ### Theorems -/

theorem two64_eq : two64 = 18446744073709551616 := by norm_num [two64]

theorem add64_eq (a b : Nat) (h : a + b < two64) : add64 a b = a + b := by
  unfold add64
  simp only [two64_eq] at *
  omega

theorem sub64_eq (a b : Nat) (ha : a < two64) (hb : b ≤ a) : sub64 a b = a - b := by
  unfold sub64
  simp only [two64_eq] at *
  omega

theorem sub64_self (a : Nat) : sub64 a a = 0 := by
  unfold sub64
  simp only [two64_eq]
  omega

theorem strAppend_assoc (a b c : String) : a ++ b ++ c = a ++ (b ++ c) := by
  cases a; cases b; cases c
  exact congrArg String.mk (List.append_assoc _ _ _)

theorem strAppend_empty (a : String) : a ++ "" = a := by
  cases a
  exact congrArg String.mk (List.append_nil _)

/-! ### C7 / C10 / C8 : start-busy, stop-idle, stop escalation -/

/-- C7: calling start while a run is already in progress (the process is
not in the `NotRunning` state) is a no-op that surfaces the busy
condition: the state is returned unchanged — no new process, no new log
file, progress untouched — and the only effect is the "Busy" warning
box. -/
theorem start_while_running_is_busy_noop (st : MWState) (env : StartEnv)
    (h : st.procRunning = true) :
    startClicked st env = (st, [Dialog.busy]) := by
  unfold startClicked
  simp [h]

theorem start_while_running_is_busy_noop_witness :
    startClicked { initState with procRunning := true } envW
      = ({ initState with procRunning := true }, [Dialog.busy]) :=
  start_while_running_is_busy_noop _ _ rfl

/-- C10: calling stop while no process is running is a silent no-op: the
handler's whole body is guarded by the running check, so the state is
returned bit-for-bit unchanged (no output line, no status message, no
log/progress/button change) and no termination signal is sent. -/
theorem stop_while_idle_is_silent_noop (st : MWState) (b : Bool)
    (h : st.procRunning = false) :
    stopClicked st b = (st, []) := by
  unfold stopClicked
  simp [h]

theorem stop_while_idle_is_silent_noop_witness :
    stopClicked initState true = (initState, []) :=
  stop_while_idle_is_silent_noop _ _ rfl

/-- C8: stopping a running process sends the graceful `terminate` signal
first; exactly when the process does not exit within the bounded
`waitForFinished(3000)` window, a forceful `kill` follows.  Whenever the
exit event is then delivered, `procFinished` puts the supervisor back in
the idle configuration: no process, log closed, Start re-enabled, Stop
disabled. -/
theorem stop_escalates_and_exit_returns_idle (st st2 : MWState)
    (exitsWithin : Bool) (rc : Int) (h : st.procRunning = true) :
    (stopClicked st exitsWithin).2
        = (if exitsWithin then [Sig.terminate] else [Sig.terminate, Sig.kill])
    ∧ (procFinished rc st2).procRunning = false
    ∧ (procFinished rc st2).logOpen = false
    ∧ (procFinished rc st2).btnStartEnabled = true
    ∧ (procFinished rc st2).btnStopEnabled = false := by
  unfold stopClicked procFinished
  simp [h]

theorem stop_escalates_and_exit_returns_idle_witness :
    (stopClicked { initState with procRunning := true } false).2
        = (if false then [Sig.terminate] else [Sig.terminate, Sig.kill])
    ∧ (procFinished 0 initState).procRunning = false
    ∧ (procFinished 0 initState).logOpen = false
    ∧ (procFinished 0 initState).btnStartEnabled = true
    ∧ (procFinished 0 initState).btnStopEnabled = false :=
  stop_escalates_and_exit_returns_idle _ _ false 0 rfl

/-! ### C6 : blank iperf3 server address -/

/-- C6: starting a Network run with a blank (or whitespace-only) server
address while `iperf3` is installed surfaces the Input Error box — not the
Missing Dependency box — with no command produced; `startClicked` then
returns the state unchanged, so the run state stays idle, no log file is
created and no process is started. -/
theorem net_blank_server_is_input_error (st : MWState) (env : StartEnv)
    (hk : env.ui.kind = BenchKind.net) (hd : env.deps "iperf3" = true)
    (hs : trimStr env.ui.netServer = "") (hr : st.procRunning = false) :
    buildCommand env.ui env.deps = (([], none), [Dialog.inputError])
    ∧ startClicked st env = (st, [Dialog.inputError]) := by
  have hb : buildCommand env.ui env.deps = (([], none), [Dialog.inputError]) := by
    unfold buildCommand
    rw [hk]
    simp [hd, hs]
  refine ⟨hb, ?_⟩
  unfold startClicked
  simp [hr, hb]

theorem net_blank_server_is_input_error_witness :
    buildCommand { uiW with kind := BenchKind.net, netServer := "   " } depsAll
        = (([], none), [Dialog.inputError])
    ∧ startClicked initState
          { envW with ui := { uiW with kind := BenchKind.net, netServer := "   " } }
        = (initState, [Dialog.inputError]) :=
  net_blank_server_is_input_error initState
    { envW with ui := { uiW with kind := BenchKind.net, netServer := "   " } }
    rfl rfl (by decide) rfl

/-! ### C2 : failure semantics of start -/

/-- C2 counterexample: a process spawn failure (the executable cannot be
started) is not reported at all — no `errorOccurred` handler is connected
and Qt emits no `finished` signal for a failed start — and it does leave
the supervisor in a non-idle configuration: immediately after
`startClicked` with `spawnOk = false`, the log file is open and the Start
button is disabled, so no new start can be initiated, contradicting the
claim's "no log file remains open, and a new start can be initiated". -/
theorem spawn_failure_leaves_log_open :
    (startClicked initState { envW with spawnOk := false }).1.logOpen = true
    ∧ (startClicked initState { envW with spawnOk := false }).1.btnStartEnabled = false
    ∧ (startClicked initState { envW with spawnOk := false }).1.procRunning = false
    ∧ (startClicked initState { envW with spawnOk := false }).2 = [] := by
  refine ⟨?_, ?_, ?_, ?_⟩ <;> rfl

/-- C2 amended: dependency/input validation failures and log-open
failures are reported synchronously (a message box) and leave the
supervisor idle — no child process, no open log, Start button untouched,
so a new start can be initiated.  A process spawn failure, however, is
reported to nobody and leaves the log file open with the Start button
disabled (the `finished` event that would clean up never arrives for a
process that never started). -/
theorem start_failure_paths (st : MWState) (env : StartEnv)
    (hr : st.procRunning = false) :
    ((buildCommand env.ui env.deps).1.1 = [] →
      startClicked st env = (st, (buildCommand env.ui env.deps).2))
    ∧ (st.logOpen = false → env.logOpenOk = false →
        (buildCommand env.ui env.deps).1.1 ≠ [] →
        (startClicked st env).1.procRunning = false
        ∧ (startClicked st env).1.logOpen = false
        ∧ (startClicked st env).1.btnStartEnabled = st.btnStartEnabled
        ∧ (startClicked st env).1.logContent = st.logContent
        ∧ (startClicked st env).2 = (buildCommand env.ui env.deps).2 ++ [Dialog.logError])
    ∧ (st.logOpen = false → env.logOpenOk = true → env.spawnOk = false →
        (buildCommand env.ui env.deps).1.1 ≠ [] →
        (startClicked st env).1.procRunning = false
        ∧ (startClicked st env).1.logOpen = true
        ∧ (startClicked st env).1.btnStartEnabled = false) := by
  refine ⟨?_, ?_, ?_⟩
  · intro hempty
    unfold startClicked
    simp [hr, hempty]
  · intro hlog hok hne
    unfold startClicked
    simp [hr, hne, hlog, hok]
  · intro hlog hok hsp hne
    unfold startClicked
    simp [hr, hne, hlog, hok, hsp]

theorem start_failure_paths_witness :
    startClicked initState { envW with ui := { uiW with kind := BenchKind.net } }
        = (initState,
           (buildCommand { uiW with kind := BenchKind.net } depsAll).2)
    ∧ ((startClicked initState { envW with logOpenOk := false }).1.procRunning = false
        ∧ (startClicked initState { envW with logOpenOk := false }).1.logOpen = false
        ∧ (startClicked initState { envW with logOpenOk := false }).1.btnStartEnabled
            = initState.btnStartEnabled
        ∧ (startClicked initState { envW with logOpenOk := false }).1.logContent
            = initState.logContent
        ∧ (startClicked initState { envW with logOpenOk := false }).2
            = (buildCommand envW.ui depsAll).2 ++ [Dialog.logError])
    ∧ ((startClicked initState { envW with spawnOk := false }).1.procRunning = false
        ∧ (startClicked initState { envW with spawnOk := false }).1.logOpen = true
        ∧ (startClicked initState { envW with spawnOk := false }).1.btnStartEnabled = false) :=
  ⟨(start_failure_paths initState { envW with ui := { uiW with kind := BenchKind.net } }
      rfl).1 (by decide),
   (start_failure_paths initState { envW with logOpenOk := false } rfl).2.1
      rfl rfl (by decide),
   (start_failure_paths initState { envW with spawnOk := false } rfl).2.2
      rfl rfl rfl (by decide)⟩

/-! ### C3 : log file round-trip -/

/-- While the log is open, delivering output events keeps it open and
appends exactly the payload bytes, in arrival order. -/
theorem applyOutputs_log (es : List OutEvent) : ∀ (st : MWState), st.logOpen = true →
    (applyOutputs st es).logOpen = true
    ∧ (applyOutputs st es).logContent = st.logContent ++ concatOut es := by
  induction es with
  | nil =>
    intro st h
    exact ⟨h, (strAppend_empty _).symm⟩
  | cons e rest ih =>
    intro st h
    have hstep : (applyOut st e).logOpen = true
        ∧ (applyOut st e).logContent = st.logContent ++ chunkData e := by
      cases e <;> simp [applyOut, readStdout, readStderr, chunkData, h]
    obtain ⟨h1, h2⟩ := hstep
    obtain ⟨h3, h4⟩ := ih (applyOut st e) h1
    refine ⟨h3, ?_⟩
    have : applyOutputs st (e :: rest) = applyOutputs (applyOut st e) rest := rfl
    rw [this, h4, h2, strAppend_assoc]
    rfl

/-- C3: for a run started from an idle state with a closed log (the
command built successfully and the log opened), the log after the exit
event is exactly: the header — application identity, ISO timestamp, full
command line — followed by every delivered output byte exactly once in
arrival order, followed by the exit-code footer; and the log is closed.
The final conjunct records that the exit handler closes the log on every
run-termination path (natural exit, stop-then-exit and abnormal death all
arrive here), so it is never left open across runs. -/
theorem run_log_roundtrip (st0 : MWState) (env : StartEnv) (es : List OutEvent) (rc : Int)
    (h1 : st0.procRunning = false) (h2 : st0.logOpen = false)
    (h3 : (buildCommand env.ui env.deps).1.1 ≠ []) (h4 : env.logOpenOk = true) :
    (procFinished rc (applyOutputs (startClicked st0 env).1 es)).logContent
        = logHeader env (buildCommand env.ui env.deps).1.1 ++ concatOut es
          ++ "\n[exit] " ++ toString rc ++ "\n"
    ∧ (procFinished rc (applyOutputs (startClicked st0 env).1 es)).logOpen = false
    ∧ ∀ (st : MWState) (rc2 : Int), (procFinished rc2 st).logOpen = false := by
  have hstart : (startClicked st0 env).1.logOpen = true
      ∧ (startClicked st0 env).1.logContent
          = logHeader env (buildCommand env.ui env.deps).1.1 := by
    unfold startClicked
    simp [h1, h2, h3, h4]
  obtain ⟨hs1, hs2⟩ := hstart
  obtain ⟨ho1, ho2⟩ := applyOutputs_log es (startClicked st0 env).1 hs1
  refine ⟨?_, by simp [procFinished], fun st rc2 => by simp [procFinished]⟩
  show (if (applyOutputs (startClicked st0 env).1 es).logOpen = true then
          (applyOutputs (startClicked st0 env).1 es).logContent
            ++ "\n[exit] " ++ toString rc ++ "\n"
        else (applyOutputs (startClicked st0 env).1 es).logContent) = _
  rw [if_pos ho1, ho2, hs2]

theorem run_log_roundtrip_witness :
    (procFinished 0 (applyOutputs (startClicked initState envW).1
          [OutEvent.stdout "alpha ", OutEvent.stderr "beta"])).logContent
        = logHeader envW (buildCommand envW.ui envW.deps).1.1
          ++ concatOut [OutEvent.stdout "alpha ", OutEvent.stderr "beta"]
          ++ "\n[exit] " ++ toString (0 : Int) ++ "\n"
    ∧ (procFinished 0 (applyOutputs (startClicked initState envW).1
          [OutEvent.stdout "alpha ", OutEvent.stderr "beta"])).logOpen = false
    ∧ ∀ (st : MWState) (rc2 : Int), (procFinished rc2 st).logOpen = false :=
  run_log_roundtrip initState envW [OutEvent.stdout "alpha ", OutEvent.stderr "beta"] 0
    rfl rfl (by decide) rfl

/-! ### C1 : command shapes and expected durations -/

/-- C1: for every benchmark kind whose required tool resolves (and, for
Network, a nonblank server address), `buildCommand` produces — with no
error box — exactly the §6 command shape with the correct executable as
first token, and the §4.2 expected duration: the clamped duration for CPU
and Memory (`max 5`), the clamped runtime for Disk, and no expected
duration for GPU and Network. -/
theorem buildCommand_shapes (ui : UiState) (deps : String → Bool) :
    (ui.kind = BenchKind.cpu → deps "stress-ng" = true →
      buildCommand ui deps
        = ((["stress-ng", "--cpu", toString (max 1 ui.cpuWorkers), "--timeout",
             toString (max 5 ui.cpuDuration) ++ "s"], some (max 5 ui.cpuDuration)), []))
    ∧ (ui.kind = BenchKind.ram → deps "stress-ng" = true →
      buildCommand ui deps
        = ((["stress-ng", "--vm", toString (max 1 ui.ramWorkers), "--vm-bytes",
             (if trimStr ui.ramBytes = "" then "512M" else trimStr ui.ramBytes),
             "--timeout", toString (max 5 ui.ramDuration) ++ "s"],
            some (max 5 ui.ramDuration)), []))
    ∧ (ui.kind = BenchKind.gpu → deps "glmark2" = true →
      buildCommand ui deps = ((["glmark2"], none), []))
    ∧ (ui.kind = BenchKind.disk → deps "fio" = true →
      buildCommand ui deps
        = ((["fio", "--name=randrw", "--rw=randrw",
             "--size=" ++ (if trimStr ui.diskSize = "" then "1G" else trimStr ui.diskSize),
             "--runtime=" ++ toString (max 5 ui.diskRuntime), "--time_based=1",
             "--filename=" ++ (if trimStr ui.diskFilename = ""
                               then ui.currentPath ++ "/fio_testfile.bin"
                               else trimStr ui.diskFilename),
             "--ioengine=" ++ (if ui.productType = "linux" then "libaio" else "psync"),
             "--direct=1"], some (max 5 ui.diskRuntime)), []))
    ∧ (ui.kind = BenchKind.net → deps "iperf3" = true → trimStr ui.netServer ≠ "" →
      buildCommand ui deps
        = ((["iperf3", "-c", trimStr ui.netServer]
             ++ splitCommand (trimStr ui.netExtra), none), [])) := by
  refine ⟨?_, ?_, ?_, ?_, ?_⟩ <;> intro hk hd
  · unfold buildCommand; rw [hk]; simp [hd]
  · unfold buildCommand; rw [hk]; simp [hd]
  · unfold buildCommand; rw [hk]; simp [hd]
  · unfold buildCommand; rw [hk]; simp [hd]
  · intro hs; unfold buildCommand; rw [hk]; simp [hd, hs]

theorem buildCommand_shapes_witness :
    buildCommand uiW depsAll
      = ((["stress-ng", "--cpu", toString (max 1 (4 : Int)), "--timeout",
           toString (max 5 (300 : Int)) ++ "s"], some (max 5 (300 : Int))), [])
    ∧ (max 5 (300 : Int)) = 300 :=
  ⟨(buildCommand_shapes uiW depsAll).1 rfl rfl, by decide⟩

/-! ### Arithmetic helper lemmas for the sampler claims -/

theorem ratio_nonneg (num den : Nat) : 0 ≤ (num : ℚ) / (den : ℚ) * 100 := by positivity

theorem ratio_le_100 (num den : Nat) (h : num ≤ den) :
    (num : ℚ) / (den : ℚ) * 100 ≤ 100 := by
  rcases Nat.eq_zero_or_pos den with h0 | hpos
  · subst h0
    simp [Nat.le_zero.mp h]
  · have hd : (0 : ℚ) < den := by exact_mod_cast hpos
    have hle : (num : ℚ) / den ≤ 1 := by
      rw [div_le_one hd]
      exact_mod_cast h
    nlinarith

theorem cpuDeltaNon_le_total (p n : CpuSnapshot) (h : WellFormedCpu p n) :
    cpuDeltaNon p n ≤ cpuTotal p n := by
  obtain ⟨h1, h2, h3, h4, h5, h6, h7, h8, hb⟩ := h
  unfold cpuTotal cpuDeltaIdle cpuDeltaNon idlePair nonIdleSum add64 sub64
  simp only [two64_eq] at *
  omega

theorem cpuTotal_self (q : CpuSnapshot) : cpuTotal q q = 0 := by
  unfold cpuTotal cpuDeltaIdle cpuDeltaNon
  rw [sub64_self, sub64_self]
  simp [add64]

theorem cpuValue_self (q : CpuSnapshot) : (cpuPercent (some q) (some q)).1 = 0 := by
  unfold cpuPercent
  simp [cpuTotal_self]

theorem toULLCore_lt (cs : List Char) (v : Nat) (h : toULLCore cs = some v) : v < two64 := by
  unfold toULLCore at h
  split at h
  · rename_i hc
    injection h with h2
    rw [← h2]
    exact hc.2.2
  · cases h

theorem toULongLong_lt (s : String) (v : Nat) (h : toULongLong s = some v) : v < two64 :=
  toULLCore_lt _ _ h

theorem memMapStep_preserves (m : List (String × Nat)) (line : String)
    (h : ∀ e ∈ m, e.2 < two64) : ∀ e ∈ memMapStep m line, e.2 < two64 := by
  intro e he
  unfold memMapStep at he
  split at he
  · split at he
    · rename_i k v rest kB hkB
      rcases List.mem_cons.mp he with h1 | h2
      · rw [h1]
        exact toULongLong_lt _ _ hkB
      · exact h e h2
    · exact h e he
  · exact h e he

theorem memMap_mem_lt (lines : List String) :
    ∀ acc, (∀ e ∈ acc, e.2 < two64) → ∀ e ∈ lines.foldl memMapStep acc, e.2 < two64 := by
  induction lines with
  | nil =>
    intro acc h
    simpa using h
  | cons l rest ih =>
    intro acc h
    exact ih (memMapStep acc l) (memMapStep_preserves acc l h)

theorem assocGet_lt (lines : List String) (k : String) : assocGet (memMap lines) k < two64 := by
  unfold assocGet assocFind?
  cases hf : (memMap lines).find? (fun e => e.1 == k) with
  | none => simp [hf, two64_eq]
  | some e =>
    have he : e ∈ memMap lines := List.mem_of_find?_eq_some hf
    have hv := memMap_mem_lt lines [] (by intro e h; cases h) e he
    simp [hf, hv]

/-- C4 counterexample: after a counter reset (every current counter below
the stored prior) `cpuPercent` does *not* report 0%.  The deltas are
`quint64` subtractions, so they wrap around to values near `2 ^ 64`; the
resulting total is nonzero, the `total <= 0` guard does not fire, and the
reported utilization is in fact above 100%. -/
theorem cpu_counter_reset_not_zero :
    (cpuPercent (some resetPrev) (some resetNow)).1 ≠ 0
    ∧ 100 < (cpuPercent (some resetPrev) (some resetNow)).1 := by
  norm_num [cpuPercent, cpuTotal, cpuDeltaIdle, cpuDeltaNon, idlePair, nonIdleSum,
    add64, sub64, two64, resetPrev, resetNow]

/-- C4 amended: `cpuPercent` returns 0.0 whenever the combined
idle-plus-active delta total is 0 (the total is an unsigned 64-bit value,
so `total <= 0` means exactly `total = 0`); this makes the first call
after startup report 0% and makes a call whose current counters equal the
stored prior report 0% (zero delta).  After a counter reset, however, the
unsigned deltas wrap around modulo `2 ^ 64`, the total is in general
nonzero, and the reported utilization is not 0%. -/
theorem cpuPercent_zero_guard (p n : CpuSnapshot) (r : Option CpuSnapshot) :
    (cpuTotal p n = 0 → (cpuPercent (some p) (some n)).1 = 0)
    ∧ (cpuPercentFirst r).1 = 0
    ∧ (cpuPercent (some p) (some p)).1 = 0 := by
  refine ⟨?_, ?_, cpuValue_self p⟩
  · intro h
    unfold cpuPercent
    simp [h]
  · cases r with
    | none => rfl
    | some q => exact cpuValue_self q

theorem cpuPercent_zero_guard_witness :
    (cpuTotal resetPrev resetPrev = 0 →
      (cpuPercent (some resetPrev) (some resetPrev)).1 = 0)
    ∧ (cpuPercentFirst (some resetPrev)).1 = 0
    ∧ (cpuPercent (some resetPrev) (some resetPrev)).1 = 0 :=
  cpuPercent_zero_guard resetPrev resetPrev (some resetPrev)

/-! ### C5 : range and degenerate values of the three percent functions -/

theorem memPercent_in_range (lines : List String)
    (hA : assocGet (memMap lines) "MemAvailable" ≤ assocGet (memMap lines) "MemTotal") :
    0 ≤ memPercent (some lines) ∧ memPercent (some lines) ≤ 100 := by
  have hT := assocGet_lt lines "MemTotal"
  have hsub : sub64 (assocGet (memMap lines) "MemTotal")
      (assocGet (memMap lines) "MemAvailable")
      = assocGet (memMap lines) "MemTotal" - assocGet (memMap lines) "MemAvailable" :=
    sub64_eq _ _ hT hA
  by_cases h0 : assocGet (memMap lines) "MemTotal" = 0
  · simp [memPercent, h0]
  · simp only [memPercent]
    rw [if_neg h0, hsub]
    exact ⟨ratio_nonneg _ _, ratio_le_100 _ _ (Nat.sub_le _ _)⟩

theorem rootDiskPercent_in_range (sv : StatVfs) (hAv : sv.f_bavail ≤ sv.f_blocks)
    (hB : sv.f_blocks * sv.f_frsize < two64) :
    0 ≤ rootDiskPercent (some sv) ∧ rootDiskPercent (some sv) ≤ 100 := by
  have havle : sv.f_bavail * sv.f_frsize ≤ sv.f_blocks * sv.f_frsize :=
    Nat.mul_le_mul_right _ hAv
  have htot : mul64 sv.f_blocks sv.f_frsize = sv.f_blocks * sv.f_frsize :=
    Nat.mod_eq_of_lt hB
  have hav : mul64 sv.f_bavail sv.f_frsize = sv.f_bavail * sv.f_frsize :=
    Nat.mod_eq_of_lt (lt_of_le_of_lt havle hB)
  have hsub : sub64 (mul64 sv.f_blocks sv.f_frsize) (mul64 sv.f_bavail sv.f_frsize)
      = sv.f_blocks * sv.f_frsize - sv.f_bavail * sv.f_frsize := by
    rw [htot, hav]
    exact sub64_eq _ _ hB havle
  by_cases h0 : mul64 sv.f_blocks sv.f_frsize = 0
  · simp [rootDiskPercent, h0]
  · simp only [rootDiskPercent]
    rw [if_neg h0, hsub, htot]
    exact ⟨ratio_nonneg _ _, ratio_le_100 _ _ (Nat.sub_le _ _)⟩

theorem cpuPercent_in_range (p n : CpuSnapshot) (h : WellFormedCpu p n) :
    0 ≤ (cpuPercent (some p) (some n)).1 ∧ (cpuPercent (some p) (some n)).1 ≤ 100 := by
  have hle := cpuDeltaNon_le_total p n h
  by_cases h0 : cpuTotal p n = 0
  · simp [cpuPercent, h0]
  · simp only [cpuPercent, if_neg h0]
    exact ⟨ratio_nonneg _ _, ratio_le_100 _ _ hle⟩

/-- C5: each of the three percent functions stays in `[0,100]` for
well-formed counter input — monotone CPU counters whose totals fit in 64
bits, memory info with `MemAvailable ≤ MemTotal`, filesystem statistics
with `avail ≤ total` and a non-overflowing product — and returns exactly
`0` on degenerate input: an unreadable source (`none`), a malformed
`/proc/stat` line (`readCpu` yields `none`), a `/proc/meminfo` without a
usable `MemTotal` (such as all-malformed lines), `MemTotal = 0`, zero
filesystem blocks, a zero CPU delta total, and the first-ever CPU
sample. -/
theorem percent_functions_bounds (p n : CpuSnapshot) (prev : Option CpuSnapshot)
    (fileOpt : Option String) (lines : List String) (sv : StatVfs) :
    (WellFormedCpu p n → 0 ≤ (cpuPercent (some p) (some n)).1
        ∧ (cpuPercent (some p) (some n)).1 ≤ 100)
    ∧ (cpuTotal p n = 0 → (cpuPercent (some p) (some n)).1 = 0)
    ∧ (cpuPercentFirst prev).1 = 0
    ∧ (readCpu fileOpt = none → (cpuPercent prev (readCpu fileOpt)).1 = 0)
    ∧ memPercent none = 0
    ∧ (assocGet (memMap lines) "MemTotal" = 0 → memPercent (some lines) = 0)
    ∧ (assocGet (memMap lines) "MemAvailable" ≤ assocGet (memMap lines) "MemTotal" →
        0 ≤ memPercent (some lines) ∧ memPercent (some lines) ≤ 100)
    ∧ rootDiskPercent none = 0
    ∧ (sv.f_blocks = 0 → rootDiskPercent (some sv) = 0)
    ∧ (sv.f_bavail ≤ sv.f_blocks → sv.f_blocks * sv.f_frsize < two64 →
        0 ≤ rootDiskPercent (some sv) ∧ rootDiskPercent (some sv) ≤ 100) := by
  refine ⟨cpuPercent_in_range p n, ?_, ?_, ?_, rfl, ?_, memPercent_in_range lines, rfl, ?_,
    rootDiskPercent_in_range sv⟩
  · intro h
    simp [cpuPercent, h]
  · cases prev with
    | none => rfl
    | some q => exact cpuValue_self q
  · intro h
    rw [h]
    cases prev <;> rfl
  · intro h
    simp [memPercent, h]
  · intro h
    simp [rootDiskPercent, mul64, h]

theorem percent_functions_bounds_witness :
    (0 ≤ (cpuPercent (some wfPrev) (some wfNow)).1
        ∧ (cpuPercent (some wfPrev) (some wfNow)).1 ≤ 100)
    ∧ (cpuPercent (some wfPrev) (some wfPrev)).1 = 0
    ∧ (cpuPercentFirst (some wfPrev)).1 = 0
    ∧ (cpuPercent (some wfPrev) (readCpu (some "bogus 1 2 3"))).1 = 0
    ∧ memPercent none = 0
    ∧ memPercent (some ["garbage"]) = 0
    ∧ (0 ≤ memPercent (some linesW) ∧ memPercent (some linesW) ≤ 100)
    ∧ rootDiskPercent none = 0
    ∧ rootDiskPercent (some ⟨0, 4096, 0⟩) = 0
    ∧ (0 ≤ rootDiskPercent (some svW) ∧ rootDiskPercent (some svW) ≤ 100) := by
  obtain ⟨c1, c2, c3, c4, c5, c6, c7, c8, c9, c10⟩ :=
    percent_functions_bounds wfPrev wfNow (some wfPrev) (some "bogus 1 2 3") linesW svW
  obtain ⟨d1, d2, d3, d4, d5, d6, d7, d8, d9, d10⟩ :=
    percent_functions_bounds wfPrev wfPrev (some wfPrev) none ["garbage"] ⟨0, 4096, 0⟩
  exact ⟨c1 (by decide), d2 (by decide), c3, c4 (by decide), c5, d6 (by decide),
    c7 (by decide), c8, d9 (by decide), c10 (by decide) (by decide)⟩

/-! ### C9 : absent `MemAvailable` key -/

/-- C9: when the memory-info data has no `MemAvailable` key, the
`QHash::value` default makes the available value fall back to `0`, so
`usedKB` equals `MemTotal`, and for `MemTotal > 0` the reported percentage
is exactly 100 — silently: `memPercent` has no failure channel, it just
returns the number. -/
theorem memAvailable_absent_full (lines : List String)
    (hF : assocFind? (memMap lines) "MemAvailable" = none)
    (hT : 0 < assocGet (memMap lines) "MemTotal") :
    sub64 (assocGet (memMap lines) "MemTotal") (assocGet (memMap lines) "MemAvailable")
      = assocGet (memMap lines) "MemTotal"
    ∧ memPercent (some lines) = 100 := by
  have hA0 : assocGet (memMap lines) "MemAvailable" = 0 := by
    unfold assocGet
    rw [hF]
  have hTlt := assocGet_lt lines "MemTotal"
  have hsub : sub64 (assocGet (memMap lines) "MemTotal")
      (assocGet (memMap lines) "MemAvailable") = assocGet (memMap lines) "MemTotal" := by
    rw [hA0, sub64_eq _ _ hTlt (Nat.zero_le _), Nat.sub_zero]
  have h0 : ¬ assocGet (memMap lines) "MemTotal" = 0 := Nat.pos_iff_ne_zero.mp hT
  refine ⟨hsub, ?_⟩
  have hq : (assocGet (memMap lines) "MemTotal" : ℚ) ≠ 0 := by exact_mod_cast h0
  simp only [memPercent]
  rw [if_neg h0, hsub, div_self hq, one_mul]

theorem memAvailable_absent_full_witness :
    sub64 (assocGet (memMap linesNoAvail) "MemTotal")
        (assocGet (memMap linesNoAvail) "MemAvailable")
      = assocGet (memMap linesNoAvail) "MemTotal"
    ∧ memPercent (some linesNoAvail) = 100 :=
  memAvailable_absent_full linesNoAvail (by decide) (by decide)
